import Mathlib

/-!
Verification development for the libmaa GPIO/PWM pin-access and interrupt
subsystem.  The public C headers (`gpio.h`, `api/maa/pwm.h`) fix the
enumerations and the operation surface; the behaviour of the operations is
taken from the design specification, since the implementation files are not
part of the given sources.  Machine-level quantities (sysfs file contents,
periods in nanoseconds) are modelled as `Nat`/`Int`, caller-side floating
point values as `ℚ`.
-/

namespace Maa

/-- Gpio Output modes, from the `gpio_mode_t` enum in the GPIO header:
`MAA_GPIO_STRONG = 0`, `MAA_GPIO_PULLUP = 1`, `MAA_GPIO_PULLDOWN = 2`,
`MAA_GPIO_HIZ = 3`. -/
inductive gpio_mode_t where
  | MAA_GPIO_STRONG
  | MAA_GPIO_PULLUP
  | MAA_GPIO_PULLDOWN
  | MAA_GPIO_HIZ
deriving DecidableEq, Repr, Fintype

/-- Numeric value of each `gpio_mode_t` constant, exactly as assigned in the
C enum declaration. -/
def gpio_mode_t.toNat : gpio_mode_t → Nat
  | .MAA_GPIO_STRONG => 0
  | .MAA_GPIO_PULLUP => 1
  | .MAA_GPIO_PULLDOWN => 2
  | .MAA_GPIO_HIZ => 3

/-- Gpio Direction options, from the `gpio_dir_t` enum in the GPIO header:
`MAA_GPIO_OUT = 0`, `MAA_GPIO_IN = 1`. -/
inductive gpio_dir_t where
  | MAA_GPIO_OUT
  | MAA_GPIO_IN
deriving DecidableEq, Repr, Fintype

/-- Numeric value of each `gpio_dir_t` constant, exactly as assigned in the
C enum declaration. -/
def gpio_dir_t.toNat : gpio_dir_t → Nat
  | .MAA_GPIO_OUT => 0
  | .MAA_GPIO_IN => 1

/-- Gpio Edge types for interrupts, from the `gpio_edge_t` enum in the GPIO
header: `MAA_GPIO_EDGE_NONE = 0`, `MAA_GPIO_EDGE_BOTH = 1`,
`MAA_GPIO_EDGE_RISING = 2`, `MAA_GPIO_EDGE_FALLING = 3`. -/
inductive gpio_edge_t where
  | MAA_GPIO_EDGE_NONE
  | MAA_GPIO_EDGE_BOTH
  | MAA_GPIO_EDGE_RISING
  | MAA_GPIO_EDGE_FALLING
deriving DecidableEq, Repr, Fintype

/-- Numeric value of each `gpio_edge_t` constant, exactly as assigned in the
C enum declaration. -/
def gpio_edge_t.toNat : gpio_edge_t → Nat
  | .MAA_GPIO_EDGE_NONE => 0
  | .MAA_GPIO_EDGE_BOTH => 1
  | .MAA_GPIO_EDGE_RISING => 2
  | .MAA_GPIO_EDGE_FALLING => 3

/-- Modelled from the spec: the error taxonomy of the design document
(section 7) for `maa_result_t`, whose defining header `common.h` is not among
the given sources: invalid-argument, resource-unavailable, io-failure,
not-permitted, already-closed, plus success. -/
inductive maa_result_t where
  | MAA_SUCCESS
  | MAA_ERROR_INVALID_ARGUMENT
  | MAA_ERROR_RESOURCE_UNAVAILABLE
  | MAA_ERROR_IO_FAILURE
  | MAA_ERROR_NOT_PERMITTED
  | MAA_ERROR_ALREADY_CLOSED
deriving DecidableEq, Repr, Fintype

/-- Observable actions an operation performs on the backend and on the
watcher task, used to state ordering and frame conditions.  `signalTerminate`
and `joinWatcher` are the shutdown handshake with a background watcher task
(`joinWatcher` blocks until the task has fully terminated); `writeEdgeFile`,
`writeDirFile`, `writeValueFile` and `unexport` are synchronous sysfs writes;
`spawnWatcher` starts a background watcher task; `freeContext` releases the
context's own memory. -/
inductive Event where
  | signalTerminate (id : Nat)
  | joinWatcher (id : Nat)
  | writeEdgeFile (e : gpio_edge_t)
  | writeDirFile (d : gpio_dir_t)
  | writeValueFile (v : Int)
  | spawnWatcher (id : Nat)
  | unexport (pin : Nat)
  | freeContext
deriving DecidableEq, Repr

/-- Modelled from the spec: the Interrupt Watcher entity, whose
implementation is not among the given sources.  It is owned by exactly one
context and records the task identifier of its background waiting task, the
registered callback and the opaque user argument (both kept as identifiers,
since function pointers have no shallow value). -/
structure Watcher where
  id : Nat
  fptr : Nat
  args : Nat
deriving DecidableEq, Repr

/-- Modelled from the spec: the internal `struct _gpio` behind the opaque
`maa_gpio_context`, whose definition is not among the given sources.  Per the
data-model section it tracks the pin, the active backend (`useMmap` plus the
board capability `mmapSupported`), current direction, output mode and
edge-detection mode, the ownership flag, and the attached interrupt watcher.
Running watcher tasks are kept as a list of task identifiers so that the
"at most one active watcher" invariant is a genuine property; `nextTaskId`
supplies fresh identifiers. -/
structure GpioCtx where
  pin : Nat
  dir : gpio_dir_t
  mode : gpio_mode_t
  edge : gpio_edge_t
  owner : Bool
  mmapSupported : Bool
  useMmap : Bool
  watchers : List Watcher
  nextTaskId : Nat
deriving DecidableEq, Repr

/-- Modelled from the spec: a callback invocation can still occur exactly
while some watcher task is running; once no task remains, no further callback
fires. -/
def canInvokeCallback (s : GpioCtx) : Bool :=
  !s.watchers.isEmpty

/-- Modelled from the spec: `maa_gpio_isr_exit`, whose implementation is not
among the given sources.  It signals every running watcher task to terminate,
sets the edge mode to `MAA_GPIO_EDGE_NONE` (written to the edge file), and
blocks (`joinWatcher`) until each task has fully terminated before returning. -/
def maa_gpio_isr_exit (s : GpioCtx) : maa_result_t × GpioCtx × List Event :=
  (.MAA_SUCCESS,
   { s with edge := .MAA_GPIO_EDGE_NONE, watchers := [] },
   s.watchers.map (fun w => Event.signalTerminate w.id)
     ++ [Event.writeEdgeFile .MAA_GPIO_EDGE_NONE]
     ++ s.watchers.map (fun w => Event.joinWatcher w.id))

/-- Modelled from the spec: `maa_gpio_isr`, whose implementation is not among
the given sources.  Arming fails with invalid-argument when the requested
edge is `MAA_GPIO_EDGE_NONE`; otherwise, if a watcher is already armed, an
implicit full `maa_gpio_isr_exit` is performed first, then the edge mode is
written and a fresh background watcher task is spawned for the callback
`fptr` with the opaque argument `args` (both kept as identifiers). -/
def maa_gpio_isr (s : GpioCtx) (edge : gpio_edge_t) (fptr args : Nat) :
    maa_result_t × GpioCtx × List Event :=
  if edge = .MAA_GPIO_EDGE_NONE then
    (.MAA_ERROR_INVALID_ARGUMENT, s, [])
  else
    let (prev, exitEvs) :=
      if s.watchers.isEmpty then (s, ([] : List Event))
      else ((maa_gpio_isr_exit s).2.1, (maa_gpio_isr_exit s).2.2)
    let id := prev.nextTaskId
    (.MAA_SUCCESS,
     { prev with edge := edge,
                 watchers := [{ id := id, fptr := fptr, args := args }],
                 nextTaskId := id + 1 },
     exitEvs ++ [Event.writeEdgeFile edge, Event.spawnWatcher id])

/-- Modelled from the spec: `maa_gpio_close`, whose implementation is not
among the given sources.  In order, it stops any active interrupt watcher
(implicit `maa_gpio_isr_exit`), unexports the pin only when the context owns
it, and finally frees the context's own memory. -/
def maa_gpio_close (s : GpioCtx) : maa_result_t × List Event :=
  let exitEvs := if s.watchers.isEmpty then [] else (maa_gpio_isr_exit s).2.2
  (.MAA_SUCCESS,
   exitEvs ++ (if s.owner then [Event.unexport s.pin] else []) ++ [Event.freeContext])

/-- Modelled from the spec: `maa_gpio_owner`, whose implementation is not
among the given sources.  It only flips the ownership flag that governs
whether `maa_gpio_close` releases the shared physical resource. -/
def maa_gpio_owner (s : GpioCtx) (owner : Bool) : maa_result_t × GpioCtx :=
  (.MAA_SUCCESS, { s with owner := owner })

/-- Modelled from the spec: `maa_gpio_use_mmaped`, whose implementation is
not among the given sources.  Enabling memory-mapped access first validates
that the board supports it; if not it returns a resource-unavailable error
and leaves the context completely unchanged, otherwise it switches the
backend tag. -/
def maa_gpio_use_mmaped (s : GpioCtx) (mmap : Bool) : maa_result_t × GpioCtx :=
  if mmap && !s.mmapSupported then
    (.MAA_ERROR_RESOURCE_UNAVAILABLE, s)
  else
    (.MAA_SUCCESS, { s with useMmap := mmap })

/-- Modelled from the spec: `maa_gpio_dir`, whose implementation is not among
the given sources.  Setting the direction is a synchronous write to the
per-pin direction file and updates the context's direction field. -/
def maa_gpio_dir (s : GpioCtx) (dir : gpio_dir_t) : maa_result_t × GpioCtx × List Event :=
  (.MAA_SUCCESS, { s with dir := dir }, [Event.writeDirFile dir])

/-- Modelled from the spec: `maa_gpio_write`, whose implementation is not
among the given sources.  Writing while the direction is `MAA_GPIO_IN` fails
with not-permitted and performs no backend action; with direction
`MAA_GPIO_OUT` the value is written synchronously to the value file. -/
def maa_gpio_write (s : GpioCtx) (value : Int) : maa_result_t × GpioCtx × List Event :=
  if s.dir = .MAA_GPIO_IN then
    (.MAA_ERROR_NOT_PERMITTED, s, [])
  else
    (.MAA_SUCCESS, s, [Event.writeValueFile value])

/-- Modelled from the spec: `maa_gpio_read`, whose implementation is not
among the given sources.  Reading is legal in both directions; it opens and
parses the per-pin value file, whose observed content is the `value_file`
argument (`none` models a failed file operation, which surfaces as an
io-failure result and is never silently swallowed). -/
def maa_gpio_read (s : GpioCtx) (value_file : Option Nat) : Except maa_result_t Nat :=
  match value_file with
  | none => .error .MAA_ERROR_IO_FAILURE
  | some v => .ok v

/-- Modelled from the spec: the internal `struct _pwm` behind the opaque
`maa_pwm_context`, whose definition is not among the given sources.  The
sysfs period and duty-cycle controls hold a numeric value in the fixed
external unit — nanoseconds, the typical unit named by the spec — and the
context further carries the ownership flag and the enable status.  Caller
floating-point values are modelled as rationals. -/
structure PwmCtx where
  chipid : Nat
  pin : Nat
  period_ns : Nat
  duty_ns : Nat
  owner : Bool
  enabled : Bool
deriving DecidableEq, Repr

/-- Modelled from the spec: the clamp applied by `maa_pwm_write` — a
percentage is forced into the interval from 0.0 to 1.0, values above
becoming 1.0 and values below becoming 0.0. -/
def clampPercent (p : ℚ) : ℚ :=
  if p > 1 then 1 else if p < 0 then 0 else p

/-- Modelled from the spec: `maa_pwm_write`, whose implementation is not
among the given sources.  The percentage is first clamped to the interval
from 0.0 to 1.0 and then converted to a pulse width relative to the
currently configured period, quantized to a whole number of the underlying
unit; out-of-range inputs are clamped, never rejected. -/
def maa_pwm_write (s : PwmCtx) (percentage : ℚ) : maa_result_t × PwmCtx :=
  (.MAA_SUCCESS,
   { s with duty_ns := (⌊clampPercent percentage * (s.period_ns : ℚ)⌋).toNat })

/-- Modelled from the spec: `maa_pwm_read`, whose implementation is not
among the given sources.  It reads the duty-cycle file — whose observed
numeric content is the `duty_file` argument, `none` modelling a failed file
operation that surfaces as an io-failure result — and converts the value
back to a percentage of the currently configured period. -/
def maa_pwm_read (s : PwmCtx) (duty_file : Option Nat) : Except maa_result_t ℚ :=
  match duty_file with
  | none => .error .MAA_ERROR_IO_FAILURE
  | some d => .ok ((d : ℚ) / (s.period_ns : ℚ))

/-- Modelled from the spec: `maa_pwm_period_us`, whose implementation is not
among the given sources.  Microseconds are converted to the fixed external
nanosecond unit and written to the period control. -/
def maa_pwm_period_us (s : PwmCtx) (us : Int) : maa_result_t × PwmCtx :=
  (.MAA_SUCCESS, { s with period_ns := (us * 1000).toNat })

/-- Modelled from the spec: `maa_pwm_period_ms`, whose implementation is not
among the given sources.  Milliseconds are converted down to microseconds. -/
def maa_pwm_period_ms (s : PwmCtx) (ms : Int) : maa_result_t × PwmCtx :=
  maa_pwm_period_us s (ms * 1000)

/-- Modelled from the spec: `maa_pwm_period`, whose implementation is not
among the given sources.  A period in seconds, given as a float, is
converted to whole microseconds. -/
def maa_pwm_period (s : PwmCtx) (seconds : ℚ) : maa_result_t × PwmCtx :=
  maa_pwm_period_us s ⌊seconds * 1000000⌋

/-- Modelled from the spec: the period of a context read back expressed in
seconds, converting the fixed nanosecond unit up. -/
def periodSeconds (s : PwmCtx) : ℚ :=
  (s.period_ns : ℚ) / 1000000000

/-- Modelled from the spec: `maa_pwm_owner`, whose implementation is not
among the given sources.  It only flips the ownership flag. -/
def maa_pwm_owner (s : PwmCtx) (owner : Bool) : maa_result_t × PwmCtx :=
  (.MAA_SUCCESS, { s with owner := owner })

/-- Modelled from the spec: `maa_pwm_close`, whose implementation is not
among the given sources.  It unexports the channel only when the context
owns it, then frees the context's own memory. -/
def maa_pwm_close (s : PwmCtx) : maa_result_t × List Event :=
  (.MAA_SUCCESS,
   (if s.owner then [Event.unexport s.pin] else []) ++ [Event.freeContext])

/-- A concrete GPIO context with one armed watcher, used to instantiate the
universally quantified theorems. -/
def sampleGpio : GpioCtx :=
  { pin := 3, dir := .MAA_GPIO_IN, mode := .MAA_GPIO_STRONG,
    edge := .MAA_GPIO_EDGE_RISING, owner := true, mmapSupported := false,
    useMmap := false, watchers := [{ id := 0, fptr := 7, args := 9 }],
    nextTaskId := 1 }

/-- A concrete PWM context with a 1000 ns period, used to instantiate the
universally quantified theorems. -/
def samplePwm : PwmCtx :=
  { chipid := 0, pin := 5, period_ns := 1000, duty_ns := 0,
    owner := true, enabled := false }

end Maa

namespace Maa

/-- C10: the public GPIO enumerations fix the concrete numeric encoding
`MAA_GPIO_EDGE_NONE = 0`, `MAA_GPIO_EDGE_BOTH = 1`, `MAA_GPIO_EDGE_RISING = 2`,
`MAA_GPIO_EDGE_FALLING = 3`; `MAA_GPIO_OUT = 0`, `MAA_GPIO_IN = 1`; and
`MAA_GPIO_STRONG = 0`; moreover a zero-valued edge or mode field always
denotes no-interrupt respectively strong-drive. -/
theorem gpio_enum_encoding :
    (gpio_edge_t.toNat .MAA_GPIO_EDGE_NONE = 0
      ∧ gpio_edge_t.toNat .MAA_GPIO_EDGE_BOTH = 1
      ∧ gpio_edge_t.toNat .MAA_GPIO_EDGE_RISING = 2
      ∧ gpio_edge_t.toNat .MAA_GPIO_EDGE_FALLING = 3)
    ∧ (gpio_dir_t.toNat .MAA_GPIO_OUT = 0 ∧ gpio_dir_t.toNat .MAA_GPIO_IN = 1)
    ∧ gpio_mode_t.toNat .MAA_GPIO_STRONG = 0
    ∧ (∀ e : gpio_edge_t, e.toNat = 0 ↔ e = .MAA_GPIO_EDGE_NONE)
    ∧ (∀ m : gpio_mode_t, m.toNat = 0 ↔ m = .MAA_GPIO_STRONG) := by
  decide

end Maa

namespace Maa

/-- C1: for every GPIO context with an armed interrupt watcher,
`maa_gpio_isr_exit` sets the context's edge mode to `MAA_GPIO_EDGE_NONE`,
joins every running watcher task before returning (so the background task
has fully terminated), and afterwards no callback invocation can occur. -/
theorem gpio_isr_exit_stops_watcher (s : GpioCtx) (h : s.watchers ≠ []) :
    (maa_gpio_isr_exit s).1 = .MAA_SUCCESS
    ∧ (maa_gpio_isr_exit s).2.1.edge = .MAA_GPIO_EDGE_NONE
    ∧ (maa_gpio_isr_exit s).2.1.watchers = []
    ∧ (∀ w ∈ s.watchers, Event.joinWatcher w.id ∈ (maa_gpio_isr_exit s).2.2)
    ∧ canInvokeCallback (maa_gpio_isr_exit s).2.1 = false := by
  refine ⟨rfl, rfl, rfl, ?_, rfl⟩
  intro w hw
  simp only [maa_gpio_isr_exit, List.mem_append, List.mem_map, List.mem_singleton]
  exact Or.inr ⟨w, hw, rfl⟩

/-- Witness for C1 at a concrete armed context. -/
theorem gpio_isr_exit_stops_watcher_witness :
    (maa_gpio_isr_exit sampleGpio).2.1.edge = .MAA_GPIO_EDGE_NONE
    ∧ (maa_gpio_isr_exit sampleGpio).2.1.watchers = []
    ∧ canInvokeCallback (maa_gpio_isr_exit sampleGpio).2.1 = false :=
  ⟨(gpio_isr_exit_stops_watcher sampleGpio (by decide)).2.1,
   (gpio_isr_exit_stops_watcher sampleGpio (by decide)).2.2.1,
   (gpio_isr_exit_stops_watcher sampleGpio (by decide)).2.2.2.2⟩

/-- C2: at most one watcher per context — arming with `maa_gpio_isr` on an
already-armed context first performs the implicit full `maa_gpio_isr_exit`
of the previous watcher (its events, joins included, precede the arming
events), the resulting context again holds at most one watcher, and
`maa_gpio_close` on a context with an active watcher performs the implicit
exit before releasing backend resources and freeing the context. -/
theorem gpio_single_watcher (s : GpioCtx) (edge : gpio_edge_t) (fptr args : Nat)
    (hw : s.watchers ≠ []) (he : edge ≠ .MAA_GPIO_EDGE_NONE) :
    (maa_gpio_isr s edge fptr args).2.2
      = (maa_gpio_isr_exit s).2.2
          ++ [Event.writeEdgeFile edge, Event.spawnWatcher s.nextTaskId]
    ∧ (maa_gpio_isr s edge fptr args).2.1.watchers.length ≤ 1
    ∧ (∀ w ∈ s.watchers,
        Event.joinWatcher w.id ∈ (maa_gpio_isr s edge fptr args).2.2)
    ∧ (maa_gpio_close s).2
      = (maa_gpio_isr_exit s).2.2
          ++ (if s.owner then [Event.unexport s.pin] else [])
          ++ [Event.freeContext] := by
  have hne : s.watchers.isEmpty = false := by
    simpa [List.isEmpty_iff] using hw
  refine ⟨?_, ?_, ?_, ?_⟩
  · simp [maa_gpio_isr, he, hne, maa_gpio_isr_exit]
  · simp [maa_gpio_isr, he, hne]
  · intro w hwmem
    simp only [maa_gpio_isr, he, hne, if_neg, Bool.false_eq_true, ite_false,
      maa_gpio_isr_exit, List.mem_append, List.mem_map, List.mem_singleton]
    simp only [reduceCtorEq, exists_false, or_false, false_or]
    exact Or.inl (Or.inr ⟨w, hwmem, rfl⟩)
  · simp [maa_gpio_close, hne]

/-- Witness for C2 at a concrete armed context. -/
theorem gpio_single_watcher_witness :
    (maa_gpio_isr sampleGpio .MAA_GPIO_EDGE_BOTH 5 6).2.1.watchers.length ≤ 1
    ∧ Event.joinWatcher 0 ∈ (maa_gpio_isr sampleGpio .MAA_GPIO_EDGE_BOTH 5 6).2.2 :=
  ⟨(gpio_single_watcher sampleGpio .MAA_GPIO_EDGE_BOTH 5 6 (by decide) (by decide)).2.1,
   (gpio_single_watcher sampleGpio .MAA_GPIO_EDGE_BOTH 5 6 (by decide) (by decide)).2.2.1
     { id := 0, fptr := 7, args := 9 } (by decide)⟩

end Maa

namespace Maa

/-- C3: a context whose ownership flag was set to false via `maa_gpio_owner`
(or `maa_pwm_owner`), when closed, still stops any active watcher and frees
the context's own memory, but performs no unexport of the shared physical
resource; the unexport happens on close exactly when the ownership flag is
true. -/
theorem owner_false_close_keeps_resource (s : GpioCtx) (p : PwmCtx) :
    (Event.freeContext ∈ (maa_gpio_close ((maa_gpio_owner s false).2)).2
      ∧ (∀ w ∈ s.watchers,
          Event.joinWatcher w.id ∈ (maa_gpio_close ((maa_gpio_owner s false).2)).2)
      ∧ (∀ pin, Event.unexport pin ∉ (maa_gpio_close ((maa_gpio_owner s false).2)).2))
    ∧ (s.owner = true → Event.unexport s.pin ∈ (maa_gpio_close s).2)
    ∧ (Event.freeContext ∈ (maa_pwm_close ((maa_pwm_owner p false).2)).2
      ∧ (∀ pin, Event.unexport pin ∉ (maa_pwm_close ((maa_pwm_owner p false).2)).2))
    ∧ (p.owner = true → Event.unexport p.pin ∈ (maa_pwm_close p).2) := by
  refine ⟨⟨?_, ?_, ?_⟩, ?_, ⟨?_, ?_⟩, ?_⟩
  · simp [maa_gpio_close, maa_gpio_owner]
  · intro w hw
    have hne : s.watchers.isEmpty = false := by
      cases hcase : s.watchers with
      | nil => simp [hcase] at hw
      | cons a l => simp [hcase]
    simp [maa_gpio_close, maa_gpio_owner, hne, maa_gpio_isr_exit]
    exact ⟨w, hw, rfl⟩
  · intro pin
    by_cases hne : s.watchers.isEmpty <;>
      simp [maa_gpio_close, maa_gpio_owner, hne, maa_gpio_isr_exit]
  · intro ho
    simp [maa_gpio_close, ho]
  · simp [maa_pwm_close, maa_pwm_owner]
  · intro pin
    simp [maa_pwm_close, maa_pwm_owner]
  · intro ho
    simp [maa_pwm_close, ho]

/-- Witness for C3 at concrete owning contexts and at the same contexts with
ownership dropped. -/
theorem owner_false_close_keeps_resource_witness :
    Event.unexport sampleGpio.pin ∈ (maa_gpio_close sampleGpio).2
    ∧ Event.unexport samplePwm.pin ∈ (maa_pwm_close samplePwm).2
    ∧ Event.unexport 3 ∉ (maa_gpio_close ((maa_gpio_owner sampleGpio false).2)).2
    ∧ Event.unexport 5 ∉ (maa_pwm_close ((maa_pwm_owner samplePwm false).2)).2 :=
  ⟨(owner_false_close_keeps_resource sampleGpio samplePwm).2.1 rfl,
   (owner_false_close_keeps_resource sampleGpio samplePwm).2.2.2 rfl,
   (owner_false_close_keeps_resource sampleGpio samplePwm).1.2.2 3,
   (owner_false_close_keeps_resource sampleGpio samplePwm).2.2.1.2 5⟩

/-- C4: on a context where memory-mapped access is unavailable,
`maa_gpio_use_mmaped dev true` returns the resource-unavailable error and
leaves the context entirely unchanged — same backend, direction, mode, edge
and ownership. -/
theorem gpio_use_mmaped_unsupported (s : GpioCtx) (h : s.mmapSupported = false) :
    (maa_gpio_use_mmaped s true).1 = .MAA_ERROR_RESOURCE_UNAVAILABLE
    ∧ (maa_gpio_use_mmaped s true).2 = s := by
  constructor <;> simp [maa_gpio_use_mmaped, h]

/-- Witness for C4 at a concrete context without memory-mapped support. -/
theorem gpio_use_mmaped_unsupported_witness :
    (maa_gpio_use_mmaped sampleGpio true).1 = .MAA_ERROR_RESOURCE_UNAVAILABLE
    ∧ (maa_gpio_use_mmaped sampleGpio true).2 = sampleGpio :=
  gpio_use_mmaped_unsupported sampleGpio rfl

/-- C5: writing to a context whose direction is `MAA_GPIO_IN` fails with the
not-permitted error and changes nothing; after a successful
`maa_gpio_dir dev MAA_GPIO_OUT` the same write succeeds; and `maa_gpio_read`
is legal in both directions. -/
theorem gpio_write_requires_out (s : GpioCtx) (value : Int) (v : Nat)
    (h : s.dir = .MAA_GPIO_IN) :
    (maa_gpio_write s value).1 = .MAA_ERROR_NOT_PERMITTED
    ∧ (maa_gpio_write s value).2.1 = s
    ∧ (maa_gpio_dir s .MAA_GPIO_OUT).1 = .MAA_SUCCESS
    ∧ (maa_gpio_write ((maa_gpio_dir s .MAA_GPIO_OUT).2.1) value).1 = .MAA_SUCCESS
    ∧ maa_gpio_read s (some v) = .ok v
    ∧ maa_gpio_read ((maa_gpio_dir s .MAA_GPIO_OUT).2.1) (some v) = .ok v := by
  refine ⟨?_, ?_, rfl, ?_, rfl, rfl⟩
  · simp [maa_gpio_write, h]
  · simp [maa_gpio_write, h]
  · simp [maa_gpio_write, maa_gpio_dir]

/-- Witness for C5 at a concrete input-direction context. -/
theorem gpio_write_requires_out_witness :
    (maa_gpio_write sampleGpio 1).1 = .MAA_ERROR_NOT_PERMITTED
    ∧ (maa_gpio_write ((maa_gpio_dir sampleGpio .MAA_GPIO_OUT).2.1) 1).1 = .MAA_SUCCESS
    ∧ maa_gpio_read sampleGpio (some 0) = .ok 0 :=
  ⟨(gpio_write_requires_out sampleGpio 1 0 rfl).1,
   (gpio_write_requires_out sampleGpio 1 0 rfl).2.2.2.1,
   (gpio_write_requires_out sampleGpio 1 0 rfl).2.2.2.2.1⟩

/-- C9: failures are reported through returned result values — a failed read
of the underlying value or duty-cycle file surfaces as an io-failure error
result, never silently swallowed, while a successful file read yields the
parsed value. -/
theorem io_failure_surfaces (s : GpioCtx) (p : PwmCtx) (v d : Nat) :
    maa_gpio_read s none = .error .MAA_ERROR_IO_FAILURE
    ∧ maa_gpio_read s (some v) = .ok v
    ∧ maa_pwm_read p none = .error .MAA_ERROR_IO_FAILURE
    ∧ maa_pwm_read p (some d) = .ok ((d : ℚ) / (p.period_ns : ℚ)) :=
  ⟨rfl, rfl, rfl, rfl⟩

end Maa

namespace Maa

/-- C6: `maa_pwm_write` first clamps the percentage to the interval from 0.0
to 1.0 — values at or above 1.0 yield the full period, values at or below
0.0 yield a zero pulse width — then converts the clamped value to a pulse
width relative to the currently configured period; out-of-range inputs are
never rejected with an error. -/
theorem pwm_write_clamps (s : PwmCtx) (p : ℚ) :
    (maa_pwm_write s p).1 = .MAA_SUCCESS
    ∧ (1 ≤ p → (maa_pwm_write s p).2.duty_ns = s.period_ns)
    ∧ (p ≤ 0 → (maa_pwm_write s p).2.duty_ns = 0)
    ∧ (0 ≤ p → p ≤ 1 →
        ((maa_pwm_write s p).2.duty_ns : ℤ) = ⌊p * (s.period_ns : ℚ)⌋) := by
  refine ⟨rfl, ?_, ?_, ?_⟩
  · intro hp
    have hc : clampPercent p = 1 := by
      by_cases hgt : p > 1
      · simp [clampPercent, hgt]
      · have hp1 : p = 1 := le_antisymm (not_lt.mp hgt) hp
        simp [clampPercent, hp1]
    simp [maa_pwm_write, hc]
  · intro hp
    have hng : ¬ p > 1 := by linarith
    have hc : clampPercent p = 0 := by
      by_cases hlt : p < 0
      · simp [clampPercent, hng, hlt]
      · have hp0 : p = 0 := le_antisymm hp (not_lt.mp hlt)
        simp [clampPercent, hng, hp0]
    simp [maa_pwm_write, hc]
  · intro h0 h1
    have hc : clampPercent p = p := by
      simp [clampPercent, not_lt.mpr h1, not_lt.mpr h0]
    have hfl : (0:ℤ) ≤ ⌊p * (s.period_ns : ℚ)⌋ :=
      Int.floor_nonneg.mpr (by positivity)
    simp [maa_pwm_write, hc, Int.toNat_of_nonneg hfl]

/-- Witness for C6 at concrete out-of-range and in-range percentages. -/
theorem pwm_write_clamps_witness :
    (maa_pwm_write samplePwm 2).1 = .MAA_SUCCESS
    ∧ (maa_pwm_write samplePwm 2).2.duty_ns = samplePwm.period_ns
    ∧ (maa_pwm_write samplePwm (-1)).2.duty_ns = 0 :=
  ⟨(pwm_write_clamps samplePwm 2).1,
   (pwm_write_clamps samplePwm 2).2.1 (by norm_num),
   (pwm_write_clamps samplePwm (-1)).2.2.1 (by norm_num)⟩

/-- C7: the write/read round trip — for a configured period and a percentage
between 0.0 and 1.0, writing and then reading back yields a value within the
underlying unit's quantization error (one nanosecond, i.e. the reciprocal of
the period) of the written percentage; writing 1.5 reads back exactly 1.0
and writing -0.2 reads back exactly 0.0. -/
theorem pwm_roundtrip (s : PwmCtx) (p : ℚ) (hT : 0 < s.period_ns)
    (h0 : 0 ≤ p) (h1 : p ≤ 1) :
    (∃ q : ℚ,
        maa_pwm_read (maa_pwm_write s p).2
          (some ((maa_pwm_write s p).2.duty_ns)) = .ok q
        ∧ |q - p| < 1 / (s.period_ns : ℚ))
    ∧ maa_pwm_read (maa_pwm_write s (3/2)).2
        (some ((maa_pwm_write s (3/2)).2.duty_ns)) = .ok 1
    ∧ maa_pwm_read (maa_pwm_write s (-(1/5))).2
        (some ((maa_pwm_write s (-(1/5))).2.duty_ns)) = .ok 0 := by
  have hT0 : (0:ℚ) < (s.period_ns : ℚ) := by exact_mod_cast hT
  have hTne : (s.period_ns : ℚ) ≠ 0 := ne_of_gt hT0
  refine ⟨?_, ?_, ?_⟩
  · have hc : clampPercent p = p := by
      simp [clampPercent, not_lt.mpr h1, not_lt.mpr h0]
    have hfl : (0:ℤ) ≤ ⌊p * (s.period_ns : ℚ)⌋ :=
      Int.floor_nonneg.mpr (by positivity)
    have hcast : ((⌊p * (s.period_ns : ℚ)⌋.toNat : Nat) : ℚ)
        = ((⌊p * (s.period_ns : ℚ)⌋ : ℤ) : ℚ) := by
      exact_mod_cast congrArg (fun z : ℤ => (z : ℚ)) (Int.toNat_of_nonneg hfl)
    refine ⟨((⌊p * (s.period_ns : ℚ)⌋ : ℤ) : ℚ) / (s.period_ns : ℚ), ?_, ?_⟩
    · simp [maa_pwm_read, maa_pwm_write, hc, hcast]
    · have hle : ((⌊p * (s.period_ns : ℚ)⌋ : ℤ) : ℚ) ≤ p * (s.period_ns : ℚ) :=
        Int.floor_le _
      have hlt : p * (s.period_ns : ℚ) < ((⌊p * (s.period_ns : ℚ)⌋ : ℤ) : ℚ) + 1 :=
        Int.lt_floor_add_one _
      have hqle : ((⌊p * (s.period_ns : ℚ)⌋ : ℤ) : ℚ) / (s.period_ns : ℚ) ≤ p := by
        rw [div_le_iff₀ hT0]; exact hle
      rw [abs_sub_comm,
        abs_of_nonneg (by linarith : (0:ℚ) ≤ p - ((⌊p * (s.period_ns : ℚ)⌋ : ℤ) : ℚ) / (s.period_ns : ℚ))]
      have hrw : p - ((⌊p * (s.period_ns : ℚ)⌋ : ℤ) : ℚ) / (s.period_ns : ℚ)
          = (p * (s.period_ns : ℚ) - ((⌊p * (s.period_ns : ℚ)⌋ : ℤ) : ℚ)) / (s.period_ns : ℚ) := by
        field_simp
      rw [hrw]
      rw [div_lt_div_iff_of_pos_right hT0]
      linarith
  · have hc : clampPercent (3/2 : ℚ) = 1 := by
      norm_num [clampPercent]
    simp [maa_pwm_read, maa_pwm_write, hc, div_self hTne]
  · have hc : clampPercent (-(1/5) : ℚ) = 0 := by
      norm_num [clampPercent]
    simp only [maa_pwm_write, maa_pwm_read, hc]
    norm_num

/-- Witness for C7 at a concrete context with a 1000 ns period. -/
theorem pwm_roundtrip_witness :
    maa_pwm_read (maa_pwm_write samplePwm (3/2)).2
      (some ((maa_pwm_write samplePwm (3/2)).2.duty_ns)) = .ok 1 :=
  (pwm_roundtrip samplePwm (1/3) (by norm_num [samplePwm]) (by norm_num)
    (by norm_num)).2.1

/-- C8: period unit conversions agree — `maa_pwm_period_ms dev 10` configures
the very same underlying period as `maa_pwm_period dev 0.010`, namely
10000000 ns, and reading that period back expressed in seconds yields
0.010. -/
theorem pwm_period_unit_consistency (s : PwmCtx) :
    (maa_pwm_period_ms s 10).2 = (maa_pwm_period s (1/100)).2
    ∧ (maa_pwm_period_ms s 10).2.period_ns = 10000000
    ∧ periodSeconds (maa_pwm_period_ms s 10).2 = 1/100 := by
  have hfl : ⌊(1/100 : ℚ) * 1000000⌋ = (10000 : ℤ) := by
    norm_num
  refine ⟨?_, ?_, ?_⟩
  · simp only [maa_pwm_period, maa_pwm_period_ms, maa_pwm_period_us, hfl]
    norm_num
  · simp only [maa_pwm_period_ms, maa_pwm_period_us]
    decide
  · simp only [maa_pwm_period_ms, maa_pwm_period_us, periodSeconds]
    have h : ((10 : ℤ) * 1000 * 1000).toNat = 10000000 := by decide
    rw [h]
    norm_num

end Maa
